import Mathlib

/-!
Verification of the protocol-adaptation core of the kata-containers
runtime shim: the wire-request decoder (`trans_from_shim.rs`), the
wire-response encoder (`trans_into_shim.rs`) and the value types they
exchange, embedded shallowly. Protobuf machine integers are modelled as
`Nat`/`Int` with explicit wrap where the source casts; byte blobs as
`List Nat`; optional protobuf message fields as `Option`.
-/

namespace KataShim

/-- protobuf well-known type `Any`: a type-tagged opaque byte payload. -/
structure AnyPayload where
  type_url : String
  value : List Nat
  deriving DecidableEq

/-- Structured filesystem path (`std::path::PathBuf`). -/
structure PathBuf where
  path : String
  deriving DecidableEq

/-- Source `PathBuf::from(&str)`. -/
def PathBuf.ofString (s : String) : PathBuf := ⟨s⟩

namespace api

/-- Wire mount record (`containerd_shim_protos::api::Mount`). -/
structure Mount where
  source : String
  target : String
  type_ : String
  options : List String
  deriving DecidableEq

end api

/-- Internal mount record (`kata_types::mount::Mount`). -/
structure Mount where
  source : String
  destination : PathBuf
  fs_type : String
  options : List String
  device_id : Option String
  host_shared_fs_path : Option String
  read_only : Bool
  deriving DecidableEq

/-- The scan loop inside `trans_from_shim_mount`: walk the option list and
stop at the first `"ro"` entry. -/
def ro_loop : List String → Bool
  | [] => false
  | o :: rest => if o = "ro" then true else ro_loop rest

/-- Source `trans_from_shim_mount` (trans_from_shim.rs, lines 24-43). -/
def trans_from_shim_mount (m : api.Mount) : Mount :=
  { source := m.source
    destination := PathBuf.ofString m.target
    fs_type := m.type_
    options := m.options
    device_id := none
    host_shared_fs_path := none
    read_only := ro_loop m.options }

/-- Decode-side error values (`anyhow::Error` contents as produced by this
layer): an unsupported type-url, a payload-parse failure, an invalid
container/process identity, or any of these wrapped by `.context(...)`. -/
inductive DecodeError where
  | unsupportedTypeUrl (url : String)
  | parseFailure (msg : String)
  | invalidIdentity (msg : String)
  | withContext (ctx : String) (err : DecodeError)
  deriving DecidableEq

/-- Model of anyhow's `.context(ctx)`: wrap the error of a fallible result. -/
def errContext (ctx : String) : Except DecodeError α → Except DecodeError α
  | .ok a => .ok a
  | .error e => .error (.withContext ctx e)

/-- Container identity. -/
structure ContainerID where
  container_id : String
  deriving DecidableEq

/-- Modelled from the spec: `ContainerID::new` lives in the runtimes common
crate's types module, which is not among the provided sources. Per the spec,
construction validates the identity and fails (InvalidIdentity) for an
empty id. -/
def ContainerID.new (id : String) : Except DecodeError ContainerID :=
  if id.isEmpty then .error (.invalidIdentity ("invalid container id " ++ id))
  else .ok ⟨id⟩

/-- Identity of a container or of a specific exec'd process within it. -/
structure ContainerProcess where
  container_id : ContainerID
  exec_id : Option String
  deriving DecidableEq

/-- Modelled from the spec: `ContainerProcess::new` is not among the provided
sources. Per the spec it validates the (id, exec_id) pair, failing with a
construction error when invalid; an empty exec_id denotes the container's
main process and becomes absent. -/
def ContainerProcess.new (id exec_id : String) : Except DecodeError ContainerProcess := do
  let cid ← ContainerID.new id
  .ok ⟨cid, if exec_id.isEmpty then none else some exec_id⟩

/-- Fixed pod-sandbox config type-url (trans_from_shim.rs, line 22). -/
def SANDBOX_API_V1 : String := "runtime.v1.PodSandboxConfig"

/-- The structured pod-sandbox config (the fields this layer reads). -/
structure PodSandboxConfig where
  hostname : String
  annotations : List (String × String)
  deriving DecidableEq

/-- Normalized "create sandbox" command payload. -/
structure SandboxConfig where
  sandbox_id : String
  bundle_path : String
  rootfs_mounts : List Mount
  type_url : String
  hostname : String
  annotations : List (String × String)
  netns_path : String
  deriving DecidableEq

/-- Sandbox identity payload. -/
structure SandboxID where
  sandbox_id : String
  deriving DecidableEq

/-- Closed internal sandbox command set (only the variant the claims touch
is carried with payload here; the others mirror the source). -/
inductive SandboxRequest where
  | CreateSandbox (config : SandboxConfig)
  | StartSandbox (id : SandboxID)
  | Platform (id : SandboxID)
  | WaitSandbox (id : SandboxID)
  | Ping (id : SandboxID)
  | ShutdownSandbox (id : SandboxID)
  deriving DecidableEq

namespace sandbox_api

/-- Wire `sandbox_api::CreateSandboxRequest` (the fields this layer reads). -/
structure CreateSandboxRequest where
  sandbox_id : String
  bundle_path : String
  rootfs : List api.Mount
  options : AnyPayload
  netns_path : String
  deriving DecidableEq

end sandbox_api

/-- Source `TryFrom<sandbox_api::CreateSandboxRequest> for SandboxRequest`
(trans_from_shim.rs, lines 45-65). `PodSandboxConfig::parse_from_bytes` is
an external protobuf collaborator, passed in as `parse`. -/
def SandboxRequest.from_create_sandbox
    (parse : List Nat → Except DecodeError PodSandboxConfig)
    (req : sandbox_api.CreateSandboxRequest) : Except DecodeError SandboxRequest :=
  let type_url := req.options.type_url
  if type_url ≠ SANDBOX_API_V1 then
    .error (.unsupportedTypeUrl type_url)
  else do
    let config ← parse req.options.value
    .ok (SandboxRequest.CreateSandbox
      { sandbox_id := req.sandbox_id
        bundle_path := req.bundle_path
        rootfs_mounts := req.rootfs.map trans_from_shim_mount
        type_url := type_url
        hostname := config.hostname
        annotations := config.annotations
        netns_path := req.netns_path })

namespace api

/-- Wire `api::CreateTaskRequest` (the fields this layer reads). `options`
is an optional protobuf message field (`has_options`/`options()`). -/
structure CreateTaskRequest where
  id : String
  bundle : String
  rootfs : List Mount
  terminal : Bool
  options : Option AnyPayload
  stdin : String
  stdout : String
  stderr : String
  deriving DecidableEq

/-- Wire `api::CloseIORequest`. -/
structure CloseIoRequest where
  id : String
  exec_id : String
  deriving DecidableEq

/-- Wire `api::DeleteRequest`. -/
structure DeleteRequest where
  id : String
  exec_id : String
  deriving DecidableEq

/-- Wire `api::ExecProcessRequest`. `spec` is an optional message field;
the protobuf getter `spec()` yields a default (empty) payload if unset. -/
structure ExecProcessRequest where
  id : String
  exec_id : String
  terminal : Bool
  stdin : String
  stdout : String
  stderr : String
  spec : Option AnyPayload
  deriving DecidableEq

/-- The protobuf getter `from.spec()`. -/
def ExecProcessRequest.spec_get (r : ExecProcessRequest) : AnyPayload :=
  r.spec.getD ⟨"", []⟩

/-- Wire `api::KillRequest`. `signal` is a u32. -/
structure KillRequest where
  id : String
  exec_id : String
  signal : Nat
  all : Bool
  deriving DecidableEq

/-- Wire `api::WaitRequest`. -/
structure WaitRequest where
  id : String
  exec_id : String
  deriving DecidableEq

/-- Wire `api::StartRequest`. -/
structure StartRequest where
  id : String
  exec_id : String
  deriving DecidableEq

/-- Wire `api::StateRequest`. -/
structure StateRequest where
  id : String
  exec_id : String
  deriving DecidableEq

/-- Wire `api::ShutdownRequest`. -/
structure ShutdownRequest where
  id : String
  now : Bool
  deriving DecidableEq

/-- Wire `api::ResizePtyRequest`. `width`/`height` are u32. -/
structure ResizePtyRequest where
  id : String
  exec_id : String
  width : Nat
  height : Nat
  deriving DecidableEq

/-- Wire `api::PauseRequest`. -/
structure PauseRequest where
  id : String
  deriving DecidableEq

/-- Wire `api::ResumeRequest`. -/
structure ResumeRequest where
  id : String
  deriving DecidableEq

/-- Wire `api::StatsRequest`. -/
structure StatsRequest where
  id : String
  deriving DecidableEq

/-- Wire `api::UpdateTaskRequest`. `resources` is an optional message field
whose getter yields a default payload if unset. -/
structure UpdateTaskRequest where
  id : String
  resources : Option AnyPayload
  deriving DecidableEq

/-- The protobuf getter `from.resources()`. -/
def UpdateTaskRequest.resources_get (r : UpdateTaskRequest) : AnyPayload :=
  r.resources.getD ⟨"", []⟩

/-- Wire `api::PidsRequest` (payload ignored by the decoder). -/
structure PidsRequest where
  id : String
  deriving DecidableEq

/-- Wire `api::ConnectRequest`. -/
structure ConnectRequest where
  id : String
  deriving DecidableEq

end api

/-- Internal container-creation payload. -/
structure ContainerConfig where
  container_id : String
  bundle : String
  rootfs_mounts : List Mount
  terminal : Bool
  options : Option (List Nat)
  stdin : Option String
  stdout : Option String
  stderr : Option String
  deriving DecidableEq

/-- Internal exec payload: identity, terminal flag, stdio paths and the
unparsed process-spec type-url and bytes. -/
structure ExecProcessRequest where
  process : ContainerProcess
  terminal : Bool
  stdin : Option String
  stdout : Option String
  stderr : Option String
  spec_type_url : String
  spec_value : List Nat
  deriving DecidableEq

/-- Internal kill payload. -/
structure KillRequest where
  process : ContainerProcess
  signal : Nat
  all : Bool
  deriving DecidableEq

/-- Internal PTY-resize payload. -/
structure ResizePTYRequest where
  process : ContainerProcess
  width : Nat
  height : Nat
  deriving DecidableEq

/-- Internal shutdown payload. -/
structure ShutdownRequest where
  container_id : String
  is_now : Bool
  deriving DecidableEq

/-- Internal resource-update payload. -/
structure UpdateRequest where
  container_id : String
  value : List Nat
  deriving DecidableEq

/-- Closed internal task command set (one variant per supported wire call). -/
inductive TaskRequest where
  | CreateContainer (config : ContainerConfig)
  | CloseProcessIo (p : ContainerProcess)
  | DeleteProcess (p : ContainerProcess)
  | ExecProcess (req : ExecProcessRequest)
  | KillProcess (req : KillRequest)
  | WaitProcess (p : ContainerProcess)
  | StartProcess (p : ContainerProcess)
  | StateProcess (p : ContainerProcess)
  | ShutdownContainer (req : ShutdownRequest)
  | ResizeProcessPTY (req : ResizePTYRequest)
  | PauseContainer (id : ContainerID)
  | ResumeContainer (id : ContainerID)
  | StatsContainer (id : ContainerID)
  | UpdateContainer (req : UpdateRequest)
  | Pid
  | ConnectContainer (id : ContainerID)
  deriving DecidableEq

/-- Stdio normalization used by the CreateTask and Exec decoders:
`(!s.is_empty()).then(|| s.clone())`. -/
def norm_stdio (s : String) : Option String :=
  if s.isEmpty then none else some s

/-- Source `TryFrom<api::CreateTaskRequest> for TaskRequest`
(trans_from_shim.rs, lines 132-151). -/
def TaskRequest.from_create_task (req : api.CreateTaskRequest) :
    Except DecodeError TaskRequest :=
  let options := match req.options with
    | some o => some o.value
    | none => none
  .ok (TaskRequest.CreateContainer
    { container_id := req.id
      bundle := req.bundle
      rootfs_mounts := req.rootfs.map trans_from_shim_mount
      terminal := req.terminal
      options := options
      stdin := norm_stdio req.stdin
      stdout := norm_stdio req.stdout
      stderr := norm_stdio req.stderr })

/-- Source `TryFrom<api::CloseIORequest> for TaskRequest`
(trans_from_shim.rs, lines 153-160). -/
def TaskRequest.from_close_io (req : api.CloseIoRequest) :
    Except DecodeError TaskRequest := do
  let p ← errContext "new process id" (ContainerProcess.new req.id req.exec_id)
  .ok (TaskRequest.CloseProcessIo p)

/-- Source `TryFrom<api::DeleteRequest> for TaskRequest`
(trans_from_shim.rs, lines 162-169). -/
def TaskRequest.from_delete (req : api.DeleteRequest) :
    Except DecodeError TaskRequest := do
  let p ← errContext "new process id" (ContainerProcess.new req.id req.exec_id)
  .ok (TaskRequest.DeleteProcess p)

/-- Source `TryFrom<api::ExecProcessRequest> for TaskRequest`
(trans_from_shim.rs, lines 171-185). -/
def TaskRequest.from_exec (req : api.ExecProcessRequest) :
    Except DecodeError TaskRequest := do
  let spec := req.spec_get
  let p ← errContext "new process id" (ContainerProcess.new req.id req.exec_id)
  .ok (TaskRequest.ExecProcess
    { process := p
      terminal := req.terminal
      stdin := norm_stdio req.stdin
      stdout := norm_stdio req.stdout
      stderr := norm_stdio req.stderr
      spec_type_url := spec.type_url
      spec_value := spec.value })

/-- Source `TryFrom<api::KillRequest> for TaskRequest`
(trans_from_shim.rs, lines 187-196). -/
def TaskRequest.from_kill (req : api.KillRequest) :
    Except DecodeError TaskRequest := do
  let p ← errContext "new process id" (ContainerProcess.new req.id req.exec_id)
  .ok (TaskRequest.KillProcess { process := p, signal := req.signal, all := req.all })

/-- Source `TryFrom<api::WaitRequest> for TaskRequest`
(trans_from_shim.rs, lines 198-205). -/
def TaskRequest.from_wait (req : api.WaitRequest) :
    Except DecodeError TaskRequest := do
  let p ← errContext "new process id" (ContainerProcess.new req.id req.exec_id)
  .ok (TaskRequest.WaitProcess p)

/-- Source `TryFrom<api::StartRequest> for TaskRequest`
(trans_from_shim.rs, lines 207-214). -/
def TaskRequest.from_start (req : api.StartRequest) :
    Except DecodeError TaskRequest := do
  let p ← errContext "new process id" (ContainerProcess.new req.id req.exec_id)
  .ok (TaskRequest.StartProcess p)

/-- Source `TryFrom<api::StateRequest> for TaskRequest`
(trans_from_shim.rs, lines 216-223). -/
def TaskRequest.from_state (req : api.StateRequest) :
    Except DecodeError TaskRequest := do
  let p ← errContext "new process id" (ContainerProcess.new req.id req.exec_id)
  .ok (TaskRequest.StateProcess p)

/-- Source `TryFrom<api::ShutdownRequest> for TaskRequest`
(trans_from_shim.rs, lines 225-233). -/
def TaskRequest.from_shutdown (req : api.ShutdownRequest) :
    Except DecodeError TaskRequest :=
  .ok (TaskRequest.ShutdownContainer { container_id := req.id, is_now := req.now })

/-- Source `TryFrom<api::ResizePtyRequest> for TaskRequest`
(trans_from_shim.rs, lines 235-244). -/
def TaskRequest.from_resize_pty (req : api.ResizePtyRequest) :
    Except DecodeError TaskRequest := do
  let p ← errContext "new process id" (ContainerProcess.new req.id req.exec_id)
  .ok (TaskRequest.ResizeProcessPTY { process := p, width := req.width, height := req.height })

/-- Source `TryFrom<api::PauseRequest> for TaskRequest`
(trans_from_shim.rs, lines 246-251). -/
def TaskRequest.from_pause (req : api.PauseRequest) :
    Except DecodeError TaskRequest := do
  let cid ← ContainerID.new req.id
  .ok (TaskRequest.PauseContainer cid)

/-- Source `TryFrom<api::ResumeRequest> for TaskRequest`
(trans_from_shim.rs, lines 253-258). -/
def TaskRequest.from_resume (req : api.ResumeRequest) :
    Except DecodeError TaskRequest := do
  let cid ← ContainerID.new req.id
  .ok (TaskRequest.ResumeContainer cid)

/-- Source `TryFrom<api::StatsRequest> for TaskRequest`
(trans_from_shim.rs, lines 260-265). -/
def TaskRequest.from_stats (req : api.StatsRequest) :
    Except DecodeError TaskRequest := do
  let cid ← ContainerID.new req.id
  .ok (TaskRequest.StatsContainer cid)

/-- Source `TryFrom<api::UpdateTaskRequest> for TaskRequest`
(trans_from_shim.rs, lines 267-275). -/
def TaskRequest.from_update_task (req : api.UpdateTaskRequest) :
    Except DecodeError TaskRequest :=
  .ok (TaskRequest.UpdateContainer
    { container_id := req.id, value := req.resources_get.value })

/-- Source `TryFrom<api::PidsRequest> for TaskRequest`
(trans_from_shim.rs, lines 277-282). -/
def TaskRequest.from_pids (_req : api.PidsRequest) :
    Except DecodeError TaskRequest :=
  .ok TaskRequest.Pid

/-- Source `TryFrom<api::ConnectRequest> for TaskRequest`
(trans_from_shim.rs, lines 284-289). -/
def TaskRequest.from_connect (req : api.ConnectRequest) :
    Except DecodeError TaskRequest := do
  let cid ← ContainerID.new req.id
  .ok (TaskRequest.ConnectContainer cid)

/-- A point in time (`std::time::SystemTime`), as signed nanoseconds since
the Unix epoch (negative = before the epoch). -/
structure SystemTime where
  nanos_since_epoch : Int
  deriving DecidableEq

/-- protobuf well-known `Timestamp` (i64 seconds, i32 nanos). -/
structure Timestamp where
  seconds : Int
  nanos : Int
  deriving DecidableEq

def NANOS_PER_SEC : Nat := 1000000000

/-- Largest value of Rust's `i64` (`Timestamp.seconds` is an i64). -/
def I64_MAX : Nat := 2 ^ 63 - 1

/-- Source `system_time_into` (trans_into_shim.rs, lines 19-29):
`duration_since(UNIX_EPOCH)` fails for pre-epoch times and
`unwrap_or_default()` turns that into a zero duration; `as_secs()` is the
whole-second count; `try_into::<i64>().unwrap_or_default()` turns an
overflowing count into 0. The nanos field is never set. -/
def system_time_into (t : SystemTime) : Timestamp :=
  let secs : Nat :=
    if t.nanos_since_epoch < 0 then 0
    else t.nanos_since_epoch.toNat / NANOS_PER_SEC
  { seconds := if secs ≤ I64_MAX then (secs : Int) else 0
    nanos := 0 }

/-- Source `option_system_time_into` (trans_into_shim.rs, lines 31-38): a `None`
time becomes an unset message field, a `Some` time a set one. -/
def option_system_time_into (t : Option SystemTime) : Option Timestamp :=
  match t with
  | some v => some (system_time_into v)
  | none => none

/-- Internal process lifecycle state. -/
inductive ProcessStatus where
  | Unknown
  | Created
  | Running
  | Stopped
  | Paused
  | Pausing
  | Exited
  deriving DecidableEq, Fintype

namespace api

/-- Wire process status enum (`api::Status`). -/
inductive Status where
  | UNKNOWN
  | CREATED
  | RUNNING
  | STOPPED
  | PAUSED
  | PAUSING
  deriving DecidableEq, Fintype

end api

/-- Source `From<ProcessStatus> for api::Status` (trans_into_shim.rs, lines 50-62). -/
def status_into (s : ProcessStatus) : api.Status :=
  match s with
  | .Unknown => .UNKNOWN
  | .Created => .CREATED
  | .Running => .RUNNING
  | .Stopped => .STOPPED
  | .Paused => .PAUSED
  | .Pausing => .PAUSING
  | .Exited => .STOPPED

/-- Process id value (`PID`), a u32. -/
structure PID where
  pid : Nat
  deriving DecidableEq

/-- Minimal exit snapshot: exit code (i32) and optional exit time. -/
structure ProcessExitStatus where
  exit_code : Int
  exit_time : Option SystemTime
  deriving DecidableEq

/-- Full process state snapshot. -/
structure ProcessStateInfo where
  container_id : String
  exec_id : String
  pid : PID
  bundle : String
  status : ProcessStatus
  stdin : Option String
  stdout : Option String
  stderr : Option String
  terminal : Bool
  exit_status : Int
  exited_at : Option SystemTime
  deriving DecidableEq

/-- Stats query result: an optional opaque typed payload. -/
structure StatsInfo where
  value : Option AnyPayload
  deriving DecidableEq

/-- Closed internal task result set (one variant per task-call result). -/
inductive TaskResponse where
  | CreateContainer (resp : PID)
  | DeleteProcess (resp : ProcessStateInfo)
  | WaitProcess (resp : ProcessExitStatus)
  | StartProcess (resp : PID)
  | StateProcess (resp : ProcessStateInfo)
  | StatsContainer (resp : StatsInfo)
  | Pid (resp : PID)
  | ConnectContainer (resp : PID)
  | CloseProcessIo
  | ExecProcess
  | KillProcess
  | ShutdownContainer
  | PauseContainer
  | ResumeContainer
  | ResizeProcessPTY
  | UpdateContainer
  deriving DecidableEq

/-- Encode-side error (`Error::UnexpectedResponse`): carries the mismatched
TaskResponse value and the name of the requested wire response type. -/
inductive EncodeError where
  | UnexpectedResponse (resp : TaskResponse) (type_name : String)
  deriving DecidableEq

/-- Rust's `i32 as u32` cast. -/
def i32_as_u32 (n : Int) : Nat := (n % (2 : Int) ^ 32).toNat

namespace api

/-- Wire `api::WaitResponse`. -/
structure WaitResponse where
  exit_status : Nat
  exited_at : Option Timestamp
  deriving DecidableEq

/-- Wire `api::StateResponse`. -/
structure StateResponse where
  id : String
  bundle : String
  pid : Nat
  status : Status
  stdin : String
  stdout : String
  stderr : String
  terminal : Bool
  exit_status : Nat
  exited_at : Option Timestamp
  exec_id : String
  deriving DecidableEq

/-- Wire `api::DeleteResponse`. -/
structure DeleteResponse where
  pid : Nat
  exit_status : Nat
  exited_at : Option Timestamp
  deriving DecidableEq

/-- Wire `api::CreateTaskResponse`. -/
structure CreateTaskResponse where
  pid : Nat
  deriving DecidableEq

/-- Wire `api::StartResponse`. -/
structure StartResponse where
  pid : Nat
  deriving DecidableEq

/-- Wire `api::StatsResponse`: optional opaque stats payload. -/
structure StatsResponse where
  stats : Option AnyPayload
  deriving DecidableEq

/-- Wire `api::ProcessInfo`. -/
structure ProcessInfo where
  pid : Nat
  deriving DecidableEq

/-- Wire `api::PidsResponse`. -/
structure PidsResponse where
  processes : List ProcessInfo
  deriving DecidableEq

/-- Wire `api::ConnectResponse`. -/
structure ConnectResponse where
  shim_pid : Nat
  deriving DecidableEq

/-- Wire `api::Empty`: the payload-free acknowledgment. -/
structure Empty where
  deriving DecidableEq

end api

/-- Source `From<ProcessExitStatus> for api::WaitResponse`
(trans_into_shim.rs, lines 40-48). -/
def waitResponse_from (s : ProcessExitStatus) : api.WaitResponse :=
  { exit_status := i32_as_u32 s.exit_code
    exited_at := option_system_time_into s.exit_time }

/-- Source `From<ProcessStateInfo> for api::StateResponse`
(trans_into_shim.rs, lines 63-80). -/
def stateResponse_from (s : ProcessStateInfo) : api.StateResponse :=
  { id := s.container_id
    bundle := s.bundle
    pid := s.pid.pid
    status := status_into s.status
    stdin := s.stdin.getD ""
    stdout := s.stdout.getD ""
    stderr := s.stderr.getD ""
    terminal := s.terminal
    exit_status := i32_as_u32 s.exit_status
    exited_at := option_system_time_into s.exited_at
    exec_id := s.exec_id }

/-- Source `From<ProcessStateInfo> for api::DeleteResponse`
(trans_into_shim.rs, lines 82-91). -/
def deleteResponse_from (s : ProcessStateInfo) : api.DeleteResponse :=
  { pid := s.pid.pid
    exit_status := i32_as_u32 s.exit_status
    exited_at := option_system_time_into s.exited_at }

/-- Source `TryFrom<TaskResponse> for api::CreateTaskResponse`
(trans_into_shim.rs, lines 93-107). -/
def try_into_create_task_response (r : TaskResponse) :
    Except EncodeError api.CreateTaskResponse :=
  match r with
  | .CreateContainer resp => .ok { pid := resp.pid }
  | _ => .error (.UnexpectedResponse r "CreateTaskResponse")

/-- Source `TryFrom<TaskResponse> for api::DeleteResponse`
(trans_into_shim.rs, lines 109-120). -/
def try_into_delete_response (r : TaskResponse) :
    Except EncodeError api.DeleteResponse :=
  match r with
  | .DeleteProcess resp => .ok (deleteResponse_from resp)
  | _ => .error (.UnexpectedResponse r "DeleteResponse")

/-- Source `TryFrom<TaskResponse> for api::WaitResponse`
(trans_into_shim.rs, lines 122-133). -/
def try_into_wait_response (r : TaskResponse) :
    Except EncodeError api.WaitResponse :=
  match r with
  | .WaitProcess resp => .ok (waitResponse_from resp)
  | _ => .error (.UnexpectedResponse r "WaitResponse")

/-- Source `TryFrom<TaskResponse> for api::StartResponse`
(trans_into_shim.rs, lines 135-149). -/
def try_into_start_response (r : TaskResponse) :
    Except EncodeError api.StartResponse :=
  match r with
  | .StartProcess resp => .ok { pid := resp.pid }
  | _ => .error (.UnexpectedResponse r "StartResponse")

/-- Source `TryFrom<TaskResponse> for api::StateResponse`
(trans_into_shim.rs, lines 151-162). -/
def try_into_state_response (r : TaskResponse) :
    Except EncodeError api.StateResponse :=
  match r with
  | .StateProcess resp => .ok (stateResponse_from resp)
  | _ => .error (.UnexpectedResponse r "StateResponse")

/-- Source `TryFrom<TaskResponse> for api::StatsResponse`
(trans_into_shim.rs, lines 164-184): the opaque value, when present, is
re-wrapped unmodified; when absent, the stats field stays unset. -/
def try_into_stats_response (r : TaskResponse) :
    Except EncodeError api.StatsResponse :=
  match r with
  | .StatsContainer resp => .ok { stats := resp.value }
  | _ => .error (.UnexpectedResponse r "StatsResponse")

/-- Source `TryFrom<TaskResponse> for api::PidsResponse`
(trans_into_shim.rs, lines 186-205). -/
def try_into_pids_response (r : TaskResponse) :
    Except EncodeError api.PidsResponse :=
  match r with
  | .Pid resp => .ok { processes := [{ pid := resp.pid }] }
  | _ => .error (.UnexpectedResponse r "PidsResponse")

/-- Source `TryFrom<TaskResponse> for api::ConnectResponse`
(trans_into_shim.rs, lines 207-222). -/
def try_into_connect_response (r : TaskResponse) :
    Except EncodeError api.ConnectResponse :=
  match r with
  | .ConnectContainer resp => .ok { shim_pid := resp.pid }
  | _ => .error (.UnexpectedResponse r "ConnectResponse")

/-- Source `TryFrom<TaskResponse> for api::Empty`
(trans_into_shim.rs, lines 224-242). -/
def try_into_empty (r : TaskResponse) :
    Except EncodeError api.Empty :=
  match r with
  | .CloseProcessIo => .ok {}
  | .ExecProcess => .ok {}
  | .KillProcess => .ok {}
  | .ShutdownContainer => .ok {}
  | .PauseContainer => .ok {}
  | .ResumeContainer => .ok {}
  | .ResizeProcessPTY => .ok {}
  | .UpdateContainer => .ok {}
  | _ => .error (.UnexpectedResponse r "Empty")

/-- Constructor tag of a `TaskResponse` (the "variant" in the spec's sense,
payload disregarded). -/
inductive TaskTag where
  | CreateContainer
  | DeleteProcess
  | WaitProcess
  | StartProcess
  | StateProcess
  | StatsContainer
  | Pid
  | ConnectContainer
  | CloseProcessIo
  | ExecProcess
  | KillProcess
  | ShutdownContainer
  | PauseContainer
  | ResumeContainer
  | ResizeProcessPTY
  | UpdateContainer
  deriving DecidableEq, Fintype

/-- Tag of a task response. -/
def TaskResponse.tag : TaskResponse → TaskTag
  | .CreateContainer _ => .CreateContainer
  | .DeleteProcess _ => .DeleteProcess
  | .WaitProcess _ => .WaitProcess
  | .StartProcess _ => .StartProcess
  | .StateProcess _ => .StateProcess
  | .StatsContainer _ => .StatsContainer
  | .Pid _ => .Pid
  | .ConnectContainer _ => .ConnectContainer
  | .CloseProcessIo => .CloseProcessIo
  | .ExecProcess => .ExecProcess
  | .KillProcess => .KillProcess
  | .ShutdownContainer => .ShutdownContainer
  | .PauseContainer => .PauseContainer
  | .ResumeContainer => .ResumeContainer
  | .ResizeProcessPTY => .ResizeProcessPTY
  | .UpdateContainer => .UpdateContainer

/-- The eight acknowledgment tags accepted by the `Empty` encoder. -/
def ackTags : List TaskTag :=
  [.CloseProcessIo, .ExecProcess, .KillProcess, .ShutdownContainer,
   .PauseContainer, .ResumeContainer, .ResizeProcessPTY, .UpdateContainer]

/-- Success test for a fallible result. -/
def isOkE : Except ε α → Bool
  | .ok _ => true
  | .error _ => false

theorem ro_loop_eq_true_iff (l : List String) : ro_loop l = true ↔ "ro" ∈ l := by
  induction l with
  | nil => simp [ro_loop]
  | cons o rest ih =>
    by_cases h : o = "ro" <;> simp [ro_loop, h, ih, eq_comm]

theorem option_system_time_into_eq_map (t : Option SystemTime) :
    option_system_time_into t = t.map system_time_into := by
  cases t <;> rfl

/-- C3: the ProcessStatus-to-wire-status encoding maps Unknown, Created,
Running, Paused and Pausing to their distinct wire statuses, Stopped and
Exited both to STOPPED, and two statuses share a wire encoding exactly in
the Stopped/Exited collapse. -/
theorem C3_process_status_encoding :
    status_into .Unknown = .UNKNOWN ∧
    status_into .Created = .CREATED ∧
    status_into .Running = .RUNNING ∧
    status_into .Stopped = .STOPPED ∧
    status_into .Paused = .PAUSED ∧
    status_into .Pausing = .PAUSING ∧
    status_into .Exited = .STOPPED ∧
    (∀ a b : ProcessStatus, status_into a = status_into b ↔
      (a = b ∨ (a = .Stopped ∧ b = .Exited) ∨ (a = .Exited ∧ b = .Stopped))) := by
  decide

/-- C4: mount normalization is total and produces the internal mount whose
destination is the structured wire target, whose options equal the wire
options verbatim, whose read-only flag holds iff the option list contains
"ro", and whose device id and host-shared-fs path are unset. -/
theorem C4_mount_normalization (m : api.Mount) :
    ((trans_from_shim_mount m).read_only = true ↔ "ro" ∈ m.options) ∧
    (trans_from_shim_mount m).destination = PathBuf.ofString m.target ∧
    (trans_from_shim_mount m).options = m.options ∧
    (trans_from_shim_mount m).source = m.source ∧
    (trans_from_shim_mount m).fs_type = m.type_ ∧
    (trans_from_shim_mount m).device_id = none ∧
    (trans_from_shim_mount m).host_shared_fs_path = none := by
  refine ⟨?_, rfl, rfl, rfl, rfl, rfl, rfl⟩
  exact ro_loop_eq_true_iff m.options

/-- C7: exactly the eight acknowledgment variants encode to the payload-free
Empty wire response; every other TaskResponse variant yields the typed
UnexpectedResponse mismatch error. -/
theorem C7_empty_ack (r : TaskResponse) :
    try_into_empty r =
      if r.tag ∈ ackTags then .ok {}
      else .error (.UnexpectedResponse r "Empty") := by
  cases r <;> rfl

/-- C8: in WaitResponse, StateResponse and DeleteResponse encoding, an
absent internal timestamp is encoded as an unset field (never epoch zero)
and a present timestamp is always encoded as a set field. -/
theorem C8_optional_timestamps (s : ProcessExitStatus) (p : ProcessStateInfo) :
    (waitResponse_from s).exited_at = s.exit_time.map system_time_into ∧
    ((waitResponse_from s).exited_at = none ↔ s.exit_time = none) ∧
    (stateResponse_from p).exited_at = p.exited_at.map system_time_into ∧
    ((stateResponse_from p).exited_at = none ↔ p.exited_at = none) ∧
    (deleteResponse_from p).exited_at = p.exited_at.map system_time_into ∧
    ((deleteResponse_from p).exited_at = none ↔ p.exited_at = none) ∧
    option_system_time_into none = none := by
  refine ⟨option_system_time_into_eq_map s.exit_time, ?_,
    option_system_time_into_eq_map p.exited_at, ?_,
    option_system_time_into_eq_map p.exited_at, ?_, rfl⟩ <;>
    simp [waitResponse_from, stateResponse_from, deleteResponse_from,
      option_system_time_into_eq_map]

/-- C10: a present pre-epoch time, and a present time whose whole-second
count overflows the i64 seconds field, are silently encoded as a set
timestamp with seconds 0 (indistinguishable from epoch zero); the
sub-second fraction is always dropped; hence encoding of present times is
not injective. -/
theorem C10_timestamp_lossy :
    (∀ t : SystemTime, t.nanos_since_epoch < 0 →
      system_time_into t = { seconds := 0, nanos := 0 }) ∧
    (∀ t : SystemTime, 0 ≤ t.nanos_since_epoch →
      I64_MAX < t.nanos_since_epoch.toNat / NANOS_PER_SEC →
      system_time_into t = { seconds := 0, nanos := 0 }) ∧
    (∀ t : SystemTime, (system_time_into t).nanos = 0) ∧
    (∀ t : SystemTime, option_system_time_into (some t) = some (system_time_into t)) ∧
    system_time_into { nanos_since_epoch := 0 } = { seconds := 0, nanos := 0 } ∧
    (system_time_into { nanos_since_epoch := 0 } =
        system_time_into { nanos_since_epoch := 1 } ∧
      ({ nanos_since_epoch := 0 } : SystemTime) ≠ { nanos_since_epoch := 1 }) := by
  refine ⟨?_, ?_, ?_, fun _ => rfl, by decide, by decide, by decide⟩
  · intro t h
    simp [system_time_into, h, I64_MAX]
  · intro t h0 hbig
    have hneg : ¬ t.nanos_since_epoch < 0 := not_lt.mpr h0
    simp only [system_time_into, hneg, if_false]
    simp [Nat.not_le.mpr hbig, not_le_of_lt hbig]
  · intro t
    simp [system_time_into]

/-- C1: decoding a CreateSandboxRequest fails with the unsupported-type
error whenever the embedded options type-url differs from the fixed
pod-sandbox literal, and succeeds with the merged SandboxConfig when the
type-url matches and the payload bytes parse. -/
theorem C1_create_sandbox_decode
    (parse : List Nat → Except DecodeError PodSandboxConfig)
    (req : sandbox_api.CreateSandboxRequest) :
    (req.options.type_url ≠ SANDBOX_API_V1 →
      SandboxRequest.from_create_sandbox parse req =
        .error (.unsupportedTypeUrl req.options.type_url)) ∧
    (∀ config : PodSandboxConfig, req.options.type_url = SANDBOX_API_V1 →
      parse req.options.value = .ok config →
      SandboxRequest.from_create_sandbox parse req =
        .ok (SandboxRequest.CreateSandbox
          { sandbox_id := req.sandbox_id
            bundle_path := req.bundle_path
            rootfs_mounts := req.rootfs.map trans_from_shim_mount
            type_url := req.options.type_url
            hostname := config.hostname
            annotations := config.annotations
            netns_path := req.netns_path })) := by
  constructor
  · intro h
    simp [SandboxRequest.from_create_sandbox, h]
  · intro config h hp
    simp [SandboxRequest.from_create_sandbox, h, hp, Bind.bind, Except.bind]

theorem C1_create_sandbox_decode_witness :
    SandboxRequest.from_create_sandbox (fun _ => .error (.parseFailure "bad"))
        { sandbox_id := "s1", bundle_path := "b", rootfs := [],
          options := { type_url := "bad.url", value := [] }, netns_path := "n" } =
      .error (.unsupportedTypeUrl "bad.url") ∧
    SandboxRequest.from_create_sandbox
        (fun _ => .ok { hostname := "h", annotations := [("a", "b")] })
        { sandbox_id := "s1", bundle_path := "bp", rootfs := [],
          options := { type_url := "runtime.v1.PodSandboxConfig", value := [1] },
          netns_path := "np" } =
      .ok (SandboxRequest.CreateSandbox
        { sandbox_id := "s1", bundle_path := "bp", rootfs_mounts := [],
          type_url := "runtime.v1.PodSandboxConfig", hostname := "h",
          annotations := [("a", "b")], netns_path := "np" }) :=
  ⟨(C1_create_sandbox_decode _ _).1 (by decide),
   (C1_create_sandbox_decode _ _).2 { hostname := "h", annotations := [("a", "b")] } rfl rfl⟩

/-- C2 counterexample: the Empty wire response type, which the encoder
produces, accepts more than one TaskResponse variant, refuting the claim
that every wire response type accepts exactly one. -/
theorem C2_counterexample :
    isOkE (try_into_empty TaskResponse.CloseProcessIo) = true ∧
    isOkE (try_into_empty TaskResponse.ExecProcess) = true ∧
    TaskResponse.tag TaskResponse.CloseProcessIo ≠ TaskResponse.tag TaskResponse.ExecProcess := by
  decide

/-- C2 (amended): each of the eight payload-carrying wire response types
accepts exactly one TaskResponse variant, the payload-free Empty
acknowledgment accepts exactly the eight ack variants, and in every case a
non-accepted variant yields the typed UnexpectedResponse error carrying
the mismatched value and the requested response type's name. -/
theorem C2_unexpected_response (r : TaskResponse) :
    ((isOkE (try_into_create_task_response r) = true ↔ r.tag = .CreateContainer) ∧
      (r.tag ≠ .CreateContainer → try_into_create_task_response r =
        .error (.UnexpectedResponse r "CreateTaskResponse"))) ∧
    ((isOkE (try_into_delete_response r) = true ↔ r.tag = .DeleteProcess) ∧
      (r.tag ≠ .DeleteProcess → try_into_delete_response r =
        .error (.UnexpectedResponse r "DeleteResponse"))) ∧
    ((isOkE (try_into_wait_response r) = true ↔ r.tag = .WaitProcess) ∧
      (r.tag ≠ .WaitProcess → try_into_wait_response r =
        .error (.UnexpectedResponse r "WaitResponse"))) ∧
    ((isOkE (try_into_start_response r) = true ↔ r.tag = .StartProcess) ∧
      (r.tag ≠ .StartProcess → try_into_start_response r =
        .error (.UnexpectedResponse r "StartResponse"))) ∧
    ((isOkE (try_into_state_response r) = true ↔ r.tag = .StateProcess) ∧
      (r.tag ≠ .StateProcess → try_into_state_response r =
        .error (.UnexpectedResponse r "StateResponse"))) ∧
    ((isOkE (try_into_stats_response r) = true ↔ r.tag = .StatsContainer) ∧
      (r.tag ≠ .StatsContainer → try_into_stats_response r =
        .error (.UnexpectedResponse r "StatsResponse"))) ∧
    ((isOkE (try_into_pids_response r) = true ↔ r.tag = .Pid) ∧
      (r.tag ≠ .Pid → try_into_pids_response r =
        .error (.UnexpectedResponse r "PidsResponse"))) ∧
    ((isOkE (try_into_connect_response r) = true ↔ r.tag = .ConnectContainer) ∧
      (r.tag ≠ .ConnectContainer → try_into_connect_response r =
        .error (.UnexpectedResponse r "ConnectResponse"))) ∧
    ((isOkE (try_into_empty r) = true ↔ r.tag ∈ ackTags) ∧
      (r.tag ∉ ackTags → try_into_empty r =
        .error (.UnexpectedResponse r "Empty"))) := by
  cases r <;>
    simp [try_into_create_task_response, try_into_delete_response,
      try_into_wait_response, try_into_start_response, try_into_state_response,
      try_into_stats_response, try_into_pids_response, try_into_connect_response,
      try_into_empty, TaskResponse.tag, ackTags, isOkE]

theorem C2_unexpected_response_witness :
    try_into_connect_response (TaskResponse.Pid { pid := 5 }) =
      .error (.UnexpectedResponse (TaskResponse.Pid { pid := 5 }) "ConnectResponse") :=
  ((C2_unexpected_response
    (TaskResponse.Pid { pid := 5 })).2.2.2.2.2.2.2.1).2 (by decide)

theorem C10_timestamp_lossy_witness :
    system_time_into { nanos_since_epoch := -5 } = { seconds := 0, nanos := 0 } ∧
    system_time_into { nanos_since_epoch := (2 ^ 63) * 1000000000 } =
      { seconds := 0, nanos := 0 } :=
  ⟨C10_timestamp_lossy.1 { nanos_since_epoch := -5 } (by decide),
   C10_timestamp_lossy.2.1 { nanos_since_epoch := (2 ^ 63) * 1000000000 }
     (by decide) (by decide)⟩

theorem norm_stdio_spec (s : String) :
    (norm_stdio s = none ↔ s = "") ∧ (s ≠ "" → norm_stdio s = some s) ∧
      norm_stdio s ≠ some "" := by
  by_cases h : s = "" <;> simp [norm_stdio, h, String.isEmpty_iff]

/-- C5: in CreateTask and Exec decoding, an empty wire stdio field becomes
absent, a non-empty one becomes present with the wire string, and a
present-but-empty stdio path never occurs. -/
theorem C5_stdio_normalization (ct : api.CreateTaskRequest)
    (ex : api.ExecProcessRequest) :
    (∃ cfg : ContainerConfig,
      TaskRequest.from_create_task ct = .ok (.CreateContainer cfg)) ∧
    (∀ cfg : ContainerConfig,
      TaskRequest.from_create_task ct = .ok (.CreateContainer cfg) →
      ((cfg.stdin = none ↔ ct.stdin = "") ∧
        (ct.stdin ≠ "" → cfg.stdin = some ct.stdin) ∧ cfg.stdin ≠ some "") ∧
      ((cfg.stdout = none ↔ ct.stdout = "") ∧
        (ct.stdout ≠ "" → cfg.stdout = some ct.stdout) ∧ cfg.stdout ≠ some "") ∧
      ((cfg.stderr = none ↔ ct.stderr = "") ∧
        (ct.stderr ≠ "" → cfg.stderr = some ct.stderr) ∧ cfg.stderr ≠ some "")) ∧
    (∀ e : ExecProcessRequest,
      TaskRequest.from_exec ex = .ok (.ExecProcess e) →
      ((e.stdin = none ↔ ex.stdin = "") ∧
        (ex.stdin ≠ "" → e.stdin = some ex.stdin) ∧ e.stdin ≠ some "") ∧
      ((e.stdout = none ↔ ex.stdout = "") ∧
        (ex.stdout ≠ "" → e.stdout = some ex.stdout) ∧ e.stdout ≠ some "") ∧
      ((e.stderr = none ↔ ex.stderr = "") ∧
        (ex.stderr ≠ "" → e.stderr = some ex.stderr) ∧ e.stderr ≠ some "")) := by
  refine ⟨⟨_, rfl⟩, ?_, ?_⟩
  · intro cfg h
    simp only [TaskRequest.from_create_task, Except.ok.injEq,
      TaskRequest.CreateContainer.injEq] at h
    subst h
    exact ⟨norm_stdio_spec ct.stdin, norm_stdio_spec ct.stdout,
      norm_stdio_spec ct.stderr⟩
  · intro e h
    cases hc : ContainerProcess.new ex.id ex.exec_id with
    | error err =>
      simp [TaskRequest.from_exec, errContext, hc, Bind.bind, Except.bind] at h
    | ok p =>
      simp only [TaskRequest.from_exec, errContext, hc, Bind.bind, Except.bind,
        Except.ok.injEq, TaskRequest.ExecProcess.injEq] at h
      subst h
      exact ⟨norm_stdio_spec ex.stdin, norm_stdio_spec ex.stdout,
        norm_stdio_spec ex.stderr⟩

/-- Scenario-1 wire request: id "c1", empty stdio, one read-only mount. -/
def scenario1_req : api.CreateTaskRequest :=
  { id := "c1", bundle := "bundle",
    rootfs := [{ source := "s", target := "t", type_ := "bind", options := ["ro"] }],
    terminal := false, options := none, stdin := "", stdout := "", stderr := "" }

/-- Scenario-1 decoded config. -/
def scenario1_config : ContainerConfig :=
  { container_id := "c1", bundle := "bundle",
    rootfs_mounts := [
      { source := "s", destination := { path := "t" }, fs_type := "bind",
        options := ["ro"], device_id := none, host_shared_fs_path := none,
        read_only := true }],
    terminal := false, options := none, stdin := none, stdout := none,
    stderr := none }

/-- Exec request with mixed stdio used to exercise the Exec half of C5. -/
def c5_exec_req : api.ExecProcessRequest :=
  { id := "c1", exec_id := "e1", terminal := true, stdin := "in",
    stdout := "", stderr := "err",
    spec := some { type_url := "x", value := [1, 2, 3] } }

/-- Decoded form of `c5_exec_req`. -/
def c5_exec_result : ExecProcessRequest :=
  { process := { container_id := { container_id := "c1" }, exec_id := some "e1" },
    terminal := true, stdin := some "in", stdout := none, stderr := some "err",
    spec_type_url := "x", spec_value := [1, 2, 3] }

theorem C5_stdio_normalization_witness :
    (((scenario1_config.stdin = none ↔ scenario1_req.stdin = "") ∧
        (scenario1_req.stdin ≠ "" → scenario1_config.stdin = some scenario1_req.stdin) ∧
        scenario1_config.stdin ≠ some "") ∧
      ((scenario1_config.stdout = none ↔ scenario1_req.stdout = "") ∧
        (scenario1_req.stdout ≠ "" → scenario1_config.stdout = some scenario1_req.stdout) ∧
        scenario1_config.stdout ≠ some "") ∧
      ((scenario1_config.stderr = none ↔ scenario1_req.stderr = "") ∧
        (scenario1_req.stderr ≠ "" → scenario1_config.stderr = some scenario1_req.stderr) ∧
        scenario1_config.stderr ≠ some "")) ∧
    (((c5_exec_result.stdin = none ↔ c5_exec_req.stdin = "") ∧
        (c5_exec_req.stdin ≠ "" → c5_exec_result.stdin = some c5_exec_req.stdin) ∧
        c5_exec_result.stdin ≠ some "") ∧
      ((c5_exec_result.stdout = none ↔ c5_exec_req.stdout = "") ∧
        (c5_exec_req.stdout ≠ "" → c5_exec_result.stdout = some c5_exec_req.stdout) ∧
        c5_exec_result.stdout ≠ some "") ∧
      ((c5_exec_result.stderr = none ↔ c5_exec_req.stderr = "") ∧
        (c5_exec_req.stderr ≠ "" → c5_exec_result.stderr = some c5_exec_req.stderr) ∧
        c5_exec_result.stderr ≠ some "")) :=
  ⟨(C5_stdio_normalization scenario1_req c5_exec_req).2.1 scenario1_config rfl,
   (C5_stdio_normalization scenario1_req c5_exec_req).2.2 c5_exec_result rfl⟩

/-- C6: for every process-addressing wire request (CloseIO, Delete, Exec,
Kill, Wait, Start, State, ResizePty), a ContainerProcess construction
failure propagates as a decode failure wrapped with the "new process id"
context, and no command is produced. -/
theorem C6_invalid_identity_propagates
    (cl : api.CloseIoRequest) (de : api.DeleteRequest) (ex : api.ExecProcessRequest)
    (ki : api.KillRequest) (wa : api.WaitRequest) (st : api.StartRequest)
    (sa : api.StateRequest) (rp : api.ResizePtyRequest) :
    (∀ err, ContainerProcess.new cl.id cl.exec_id = .error err →
      TaskRequest.from_close_io cl = .error (.withContext "new process id" err)) ∧
    (∀ err, ContainerProcess.new de.id de.exec_id = .error err →
      TaskRequest.from_delete de = .error (.withContext "new process id" err)) ∧
    (∀ err, ContainerProcess.new ex.id ex.exec_id = .error err →
      TaskRequest.from_exec ex = .error (.withContext "new process id" err)) ∧
    (∀ err, ContainerProcess.new ki.id ki.exec_id = .error err →
      TaskRequest.from_kill ki = .error (.withContext "new process id" err)) ∧
    (∀ err, ContainerProcess.new wa.id wa.exec_id = .error err →
      TaskRequest.from_wait wa = .error (.withContext "new process id" err)) ∧
    (∀ err, ContainerProcess.new st.id st.exec_id = .error err →
      TaskRequest.from_start st = .error (.withContext "new process id" err)) ∧
    (∀ err, ContainerProcess.new sa.id sa.exec_id = .error err →
      TaskRequest.from_state sa = .error (.withContext "new process id" err)) ∧
    (∀ err, ContainerProcess.new rp.id rp.exec_id = .error err →
      TaskRequest.from_resize_pty rp = .error (.withContext "new process id" err)) := by
  refine ⟨?_, ?_, ?_, ?_, ?_, ?_, ?_, ?_⟩ <;>
    intro err h <;>
    simp [TaskRequest.from_close_io, TaskRequest.from_delete, TaskRequest.from_exec,
      TaskRequest.from_kill, TaskRequest.from_wait, TaskRequest.from_start,
      TaskRequest.from_state, TaskRequest.from_resize_pty,
      errContext, h, Bind.bind, Except.bind]

theorem C6_invalid_identity_propagates_witness :
    TaskRequest.from_close_io { id := "", exec_id := "x" } =
      .error (.withContext "new process id" (.invalidIdentity "invalid container id ")) ∧
    TaskRequest.from_delete { id := "", exec_id := "x" } =
      .error (.withContext "new process id" (.invalidIdentity "invalid container id ")) ∧
    TaskRequest.from_exec
        { id := "", exec_id := "x", terminal := false, stdin := "", stdout := "",
          stderr := "", spec := none } =
      .error (.withContext "new process id" (.invalidIdentity "invalid container id ")) ∧
    TaskRequest.from_kill { id := "", exec_id := "x", signal := 9, all := true } =
      .error (.withContext "new process id" (.invalidIdentity "invalid container id ")) ∧
    TaskRequest.from_wait { id := "", exec_id := "x" } =
      .error (.withContext "new process id" (.invalidIdentity "invalid container id ")) ∧
    TaskRequest.from_start { id := "", exec_id := "x" } =
      .error (.withContext "new process id" (.invalidIdentity "invalid container id ")) ∧
    TaskRequest.from_state { id := "", exec_id := "x" } =
      .error (.withContext "new process id" (.invalidIdentity "invalid container id ")) ∧
    TaskRequest.from_resize_pty
        { id := "", exec_id := "x", width := 80, height := 25 } =
      .error (.withContext "new process id" (.invalidIdentity "invalid container id ")) :=
  ⟨(C6_invalid_identity_propagates { id := "", exec_id := "x" } { id := "", exec_id := "x" }
      { id := "", exec_id := "x", terminal := false, stdin := "", stdout := "",
        stderr := "", spec := none }
      { id := "", exec_id := "x", signal := 9, all := true } { id := "", exec_id := "x" }
      { id := "", exec_id := "x" } { id := "", exec_id := "x" }
      { id := "", exec_id := "x", width := 80, height := 25 }).1 _ rfl,
   (C6_invalid_identity_propagates { id := "", exec_id := "x" } { id := "", exec_id := "x" }
      { id := "", exec_id := "x", terminal := false, stdin := "", stdout := "",
        stderr := "", spec := none }
      { id := "", exec_id := "x", signal := 9, all := true } { id := "", exec_id := "x" }
      { id := "", exec_id := "x" } { id := "", exec_id := "x" }
      { id := "", exec_id := "x", width := 80, height := 25 }).2.1 _ rfl,
   (C6_invalid_identity_propagates { id := "", exec_id := "x" } { id := "", exec_id := "x" }
      { id := "", exec_id := "x", terminal := false, stdin := "", stdout := "",
        stderr := "", spec := none }
      { id := "", exec_id := "x", signal := 9, all := true } { id := "", exec_id := "x" }
      { id := "", exec_id := "x" } { id := "", exec_id := "x" }
      { id := "", exec_id := "x", width := 80, height := 25 }).2.2.1 _ rfl,
   (C6_invalid_identity_propagates { id := "", exec_id := "x" } { id := "", exec_id := "x" }
      { id := "", exec_id := "x", terminal := false, stdin := "", stdout := "",
        stderr := "", spec := none }
      { id := "", exec_id := "x", signal := 9, all := true } { id := "", exec_id := "x" }
      { id := "", exec_id := "x" } { id := "", exec_id := "x" }
      { id := "", exec_id := "x", width := 80, height := 25 }).2.2.2.1 _ rfl,
   (C6_invalid_identity_propagates { id := "", exec_id := "x" } { id := "", exec_id := "x" }
      { id := "", exec_id := "x", terminal := false, stdin := "", stdout := "",
        stderr := "", spec := none }
      { id := "", exec_id := "x", signal := 9, all := true } { id := "", exec_id := "x" }
      { id := "", exec_id := "x" } { id := "", exec_id := "x" }
      { id := "", exec_id := "x", width := 80, height := 25 }).2.2.2.2.1 _ rfl,
   (C6_invalid_identity_propagates { id := "", exec_id := "x" } { id := "", exec_id := "x" }
      { id := "", exec_id := "x", terminal := false, stdin := "", stdout := "",
        stderr := "", spec := none }
      { id := "", exec_id := "x", signal := 9, all := true } { id := "", exec_id := "x" }
      { id := "", exec_id := "x" } { id := "", exec_id := "x" }
      { id := "", exec_id := "x", width := 80, height := 25 }).2.2.2.2.2.1 _ rfl,
   (C6_invalid_identity_propagates { id := "", exec_id := "x" } { id := "", exec_id := "x" }
      { id := "", exec_id := "x", terminal := false, stdin := "", stdout := "",
        stderr := "", spec := none }
      { id := "", exec_id := "x", signal := 9, all := true } { id := "", exec_id := "x" }
      { id := "", exec_id := "x" } { id := "", exec_id := "x" }
      { id := "", exec_id := "x", width := 80, height := 25 }).2.2.2.2.2.2.1 _ rfl,
   (C6_invalid_identity_propagates { id := "", exec_id := "x" } { id := "", exec_id := "x" }
      { id := "", exec_id := "x", terminal := false, stdin := "", stdout := "",
        stderr := "", spec := none }
      { id := "", exec_id := "x", signal := 9, all := true } { id := "", exec_id := "x" }
      { id := "", exec_id := "x" } { id := "", exec_id := "x" }
      { id := "", exec_id := "x", width := 80, height := 25 }).2.2.2.2.2.2.2 _ rfl⟩

/-- C9: a successfully decoded Exec request carries the spec payload's
type-url and raw bytes unmodified, the wire terminal flag, and the
ContainerProcess constructed from (id, exec_id). -/
theorem C9_exec_spec_passthrough (req : api.ExecProcessRequest)
    (e : ExecProcessRequest)
    (h : TaskRequest.from_exec req = .ok (.ExecProcess e)) :
    e.spec_type_url = req.spec_get.type_url ∧
    e.spec_value = req.spec_get.value ∧
    e.terminal = req.terminal ∧
    ContainerProcess.new req.id req.exec_id = .ok e.process := by
  cases hc : ContainerProcess.new req.id req.exec_id with
  | error err =>
    simp [TaskRequest.from_exec, errContext, hc, Bind.bind, Except.bind] at h
  | ok p =>
    simp only [TaskRequest.from_exec, errContext, hc, Bind.bind, Except.bind,
      Except.ok.injEq, TaskRequest.ExecProcess.injEq] at h
    subst h
    exact ⟨rfl, rfl, rfl, rfl⟩

/-- Scenario-2 wire request: id "c1", exec_id "e1", spec type-url "x",
bytes [1,2,3]. -/
def scenario2_req : api.ExecProcessRequest :=
  { id := "c1", exec_id := "e1", terminal := false, stdin := "", stdout := "",
    stderr := "", spec := some { type_url := "x", value := [1, 2, 3] } }

/-- Scenario-2 decoded result. -/
def scenario2_result : ExecProcessRequest :=
  { process := { container_id := { container_id := "c1" }, exec_id := some "e1" },
    terminal := false, stdin := none, stdout := none, stderr := none,
    spec_type_url := "x", spec_value := [1, 2, 3] }

theorem C9_exec_spec_passthrough_witness :
    scenario2_result.spec_type_url = scenario2_req.spec_get.type_url ∧
    scenario2_result.spec_value = scenario2_req.spec_get.value ∧
    scenario2_result.terminal = scenario2_req.terminal ∧
    ContainerProcess.new scenario2_req.id scenario2_req.exec_id =
      .ok scenario2_result.process :=
  C9_exec_spec_passthrough scenario2_req scenario2_result rfl

end KataShim
